import Mathlib

/-!
Shallow embedding of `cupy/_environment.py` (toolkit path resolution and
library preloading).

The Python module keeps its state in module-level globals
(`_cuda_path`, `_nvcc_path`, `_cub_path`, `_preload_config`,
`_preload_libs`, `_preload_logs`); here that state is an explicit
`EnvState` record threaded through every function.  The ambient process
environment (environment variables, the filesystem, `shutil.which`, the
parsed content of the wheel configuration file, whether `ctypes.CDLL`
succeeds on a given name) is an immutable `World` record.  Every
filesystem or loader interaction is additionally recorded in an `FsOp`
trace so that claims about probe counts can be stated.

A Python function that may raise returns `Option PyErr` as its first
component (`none` = normal return, `some e` = the exception `e`
propagating to the caller).
-/

set_option autoImplicit false

namespace CupyEnv

/-- One observable interaction with the filesystem or the dynamic loader. -/
inductive FsOp where
  | pathExists (p : String)
  | isDir (p : String)
  | which (cmd : String)
  | whichAt (cmd : String) (searchPath : String)
  | readConfig (p : String)
  | cdll (nameOrPath : String)
  deriving DecidableEq, Repr

/-- A Python exception escaping to the caller.  `keyError k` models
`KeyError: k` from a dict subscript on a missing key. -/
inductive PyErr where
  | keyError (k : String)
  deriving DecidableEq, Repr

/-- One library entry of the wheel configuration
(`config[lib]` in the source, a JSON object).  `json.load` performs no
shape validation, so both fields may be absent; a missing field turns a
dict subscript into a `KeyError`. -/
structure LibEntry where
  version : Option String
  filename : Option String
  deriving DecidableEq, Repr

/-- The parsed wheel configuration (`_preload_config`, the JSON document
in `cupy/_wheel.json`).  `cuda` is `config.get('cuda')`; `libs` holds the
per-library objects keyed by library name. -/
structure WheelConfig where
  cuda : Option String
  libs : List (String × LibEntry)
  deriving DecidableEq, Repr

/-- The ambient process environment, immutable during a run.
`config` is the parsed content of `cupy/_wheel.json` when that file
exists (`none` = the file does not exist); `cdllOk p` says whether
`ctypes.CDLL(p)` succeeds.  `installPath` is the value of
`get_cupy_install_path()` and `currentDir` the directory of the module
file, both fixed by the installation; `abspath` and `homeDir` model
`os.path.abspath` and the home directory used by `os.path.expanduser`. -/
structure World where
  env : String → Option String
  pathExists : String → Bool
  isDir : String → Bool
  which : String → Option String
  whichAt : String → Option String
  config : Option WheelConfig
  cdllOk : String → Bool
  installPath : String
  currentDir : String
  homeDir : String
  abspath : String → String
  platform : String

/-- The module-level mutable globals of `cupy/_environment.py`.
The three path caches use the value `some ""` for the uninitialized
sentinel `''` and `none` for Python `None` (resolution done, nothing
found), exactly as the source does.  `preload_libs` maps a library name
to the source path of its loaded handle (`none` = not loaded), mirroring
`_preload_libs[lib] = (path, ctypes.CDLL(path))`. -/
structure EnvState where
  cuda_path : Option String
  nvcc_path : Option String
  cub_path : Option String
  preload_config : Option WheelConfig
  preload_libs : List (String × Option String)
  preload_logs : List String
  warnings : List String
  deriving DecidableEq, Repr

/-- The state at module import: `''` sentinels, no cached config, the
known preload library table `\x7b'cudnn': None\x7d`, empty log, no warnings
issued. -/
def initState : EnvState :=
  { cuda_path := some ""
    nvcc_path := some ""
    cub_path := some ""
    preload_config := none
    preload_libs := [("cudnn", none)]
    preload_logs := []
    warnings := [] }

/-- `_log(msg)`: append to `_preload_logs`. -/
def log (s : EnvState) (msg : String) : EnvState :=
  { s with preload_logs := s.preload_logs ++ [msg] }

/-- Index one past the last slash of the character list (0 when there is
no slash), as in `p.rfind(sep) + 1` of `posixpath.dirname`. -/
def lastSlashSucc (cs : List Char) : Nat :=
  (List.range cs.length).foldl
    (fun acc j => if cs.getD j ' ' = '/' then j + 1 else acc) 0

/-- `posixpath.dirname`: everything up to the last slash, with trailing
slashes stripped unless the head consists of slashes only. -/
def dirname (p : String) : String :=
  let cs := p.toList
  let head := cs.take (lastSlashSucc cs)
  if head.length ≠ 0 ∧ ¬ (head.all fun c => c = '/') then
    String.mk ((head.reverse.dropWhile fun c => c = '/').reverse)
  else
    String.mk head

/-- `posixpath.join` restricted to two components.  The separator tests
are spelled on the character list so that they evaluate inside the
kernel. -/
def joinP (a b : String) : String :=
  if b.toList.head? = some '/' then b
  else if a = "" ∨ a.toList.getLast? = some '/' then a ++ b
  else a ++ "/" ++ b

/-- `_get_cuda_path()` (lines 91-106): environment override accepted when
it exists on disk, else the grandparent of the `nvcc` found on the
search path, else `/usr/local/cuda` when present, else `None`.  Pure in
the module state; returns the result together with the probe trace. -/
def _get_cuda_path (w : World) : Option String × List FsOp :=
  let cuda_path := (w.env "CUDA_PATH").getD ""
  if w.pathExists cuda_path then
    (some cuda_path, [FsOp.pathExists cuda_path])
  else
    match w.which "nvcc" with
    | some nvcc_path =>
        (some (dirname (dirname nvcc_path)),
         [FsOp.pathExists cuda_path, FsOp.which "nvcc"])
    | none =>
        if w.pathExists "/usr/local/cuda" then
          (some "/usr/local/cuda",
           [FsOp.pathExists cuda_path, FsOp.which "nvcc",
            FsOp.pathExists "/usr/local/cuda"])
        else
          (none,
           [FsOp.pathExists cuda_path, FsOp.which "nvcc",
            FsOp.pathExists "/usr/local/cuda"])

/-- `get_cuda_path()` (lines 67-72): memoized wrapper around
`_get_cuda_path`, recomputing exactly when the cache cell still holds the
`''` sentinel. -/
def get_cuda_path (w : World) (s : EnvState) :
    Option String × EnvState × List FsOp :=
  if s.cuda_path = some "" then
    match _get_cuda_path w with
    | (r, t) => (r, { s with cuda_path := r }, t)
  else
    (s.cuda_path, s, [])

/-- `_get_nvcc_path()` (lines 109-120): the `NVCC` environment variable
is returned unconditionally when set; otherwise `nvcc` is searched for
under `<cuda_path>/bin`, triggering `get_cuda_path` (which may populate
the toolkit cache). -/
def _get_nvcc_path (w : World) (s : EnvState) :
    Option String × EnvState × List FsOp :=
  match w.env "NVCC" with
  | some nvcc_path => (some nvcc_path, s, [])
  | none =>
      match get_cuda_path w s with
      | (none, s1, t1) => (none, s1, t1)
      | (some cuda_path, s1, t1) =>
          (w.whichAt (joinP cuda_path "bin"), s1,
           t1 ++ [FsOp.whichAt "nvcc" (joinP cuda_path "bin")])

/-- `get_nvcc_path()` (lines 75-80): memoized wrapper around
`_get_nvcc_path`. -/
def get_nvcc_path (w : World) (s : EnvState) :
    Option String × EnvState × List FsOp :=
  if s.nvcc_path = some "" then
    match _get_nvcc_path w s with
    | (r, s1, t) => (r, { s1 with nvcc_path := r }, t)
  else
    (s.nvcc_path, s, [])

/-- `_get_cub_path()` (lines 123-136): the bundled CUB headers inside the
package tree win; otherwise `<cuda_path>/include/cub` under the resolved
toolkit path; otherwise `None`. -/
def _get_cub_path (w : World) (s : EnvState) :
    Option String × EnvState × List FsOp :=
  match get_cuda_path w s with
  | (cuda_path, s1, t1) =>
      let bundled := joinP w.currentDir "core/include/cupy/cub"
      if w.isDir bundled then
        (some "<bundle>", s1, t1 ++ [FsOp.isDir bundled])
      else
        match cuda_path with
        | some cp =>
            if w.isDir (joinP cp "include/cub") then
              (some "<CUDA>", s1,
               t1 ++ [FsOp.isDir bundled, FsOp.isDir (joinP cp "include/cub")])
            else
              (none, s1,
               t1 ++ [FsOp.isDir bundled, FsOp.isDir (joinP cp "include/cub")])
        | none => (none, s1, t1 ++ [FsOp.isDir bundled])

/-- `get_cub_path()` (lines 83-88): memoized wrapper around
`_get_cub_path`. -/
def get_cub_path (w : World) (s : EnvState) :
    Option String × EnvState × List FsOp :=
  if s.cub_path = some "" then
    match _get_cub_path w s with
    | (r, s1, t) => (r, { s1 with cub_path := r }, t)
  else
    (s.cub_path, s, [])

/-- `get_cupy_install_path()` (lines 150-153): fixed by the installation,
modelled as a `World` field. -/
def get_cupy_install_path (w : World) : String :=
  w.installPath

/-- `get_cupy_cuda_lib_path()` (lines 156-170): the
`CUPY_CUDA_LIB_PATH` override is accepted unconditionally (made absolute);
the default is the `~/.cupy/cuda_lib` directory under the home
directory. -/
def get_cupy_cuda_lib_path (w : World) : String :=
  match w.env "CUPY_CUDA_LIB_PATH" with
  | none => w.homeDir ++ "/.cupy/cuda_lib"
  | some p => w.abspath p

/-- The location of the wheel configuration file,
`os.path.join(get_cupy_install_path(), 'cupy', '_wheel.json')`
(lines 176-177). -/
def config_path (w : World) : String :=
  joinP (joinP (get_cupy_install_path w) "cupy") "_wheel.json"

/-- `get_preload_config()` (lines 173-181): when the cache is empty and
the file does not exist, return `None` WITHOUT caching (so a later call
probes again); when the file exists, parse and cache it; a cached config
is returned with no filesystem access.  `w.config` is the parsed content
of the file when it exists, so the `os.path.exists` probe is modelled by
matching on it (with the probe recorded in the trace). -/
def get_preload_config (w : World) (s : EnvState) :
    Option WheelConfig × EnvState × List FsOp :=
  match s.preload_config with
  | some c => (some c, s, [])
  | none =>
      match w.config with
      | none => (none, s, [FsOp.pathExists (config_path w)])
      | some c =>
          (some c, { s with preload_config := some c },
           [FsOp.pathExists (config_path w), FsOp.readConfig (config_path w)])

/-- `'bin' if sys.platform.startswith('win32') else 'lib64'`
(line 210), with the platform test spelled on the character list so that
it evaluates inside the kernel. -/
def lib64dir (w : World) : String :=
  if "win32".toList.isPrefixOf w.platform.toList then "bin" else "lib64"

/-- The candidate path built at lines 211-212:
`os.path.join(cupy_cuda_lib_path, config['cuda'], lib, version, lib64dir)`.
Note the configured `filename` is NOT a component of this path. -/
def qualifiedDir (w : World) (base cuda_version lib version : String) : String :=
  joinP (joinP (joinP (joinP base cuda_version) lib) version) (lib64dir w)

/-- Python dict assignment `d[k] = v` on an association list: replace the
value of an existing key, append the pair otherwise. -/
def setLib (k : String) (v : Option String) :
    List (String × Option String) → List (String × Option String)
  | [] => [(k, v)]
  | p :: rest => if p.1 = k then (k, v) :: rest else p :: setLib k v rest

/-- The body of the preload loop (lines 203-236) for one library name
`lib`; the spec calls this `tryPreload`.  `cuda_version` is the value of
`config['cuda']`, already read at line 196 (line 212 reads it again,
with the same result).  A missing `version` or `filename` key raises
`KeyError`; otherwise the qualified candidate directory is probed and
loaded when it exists (a load failure logs and warns), and otherwise the
bare configured filename is loaded through the default search (a load
failure only logs). -/
def tryPreloadOne (w : World) (config : WheelConfig)
    (cuda_version base lib : String) (s : EnvState) :
    Option PyErr × EnvState × List FsOp :=
  match config.libs.lookup lib with
  | none => (none, log s ("Not preloading " ++ lib), [])
  | some entry =>
      match entry.version with
      | none => (some (PyErr.keyError "version"), s, [])
      | some version =>
          match entry.filename with
          | none => (some (PyErr.keyError "filename"), s, [])
          | some filename =>
              let s1 := log s ("Looking for " ++ lib ++ " version " ++ version
                ++ " (" ++ filename ++ ")")
              let libpath := qualifiedDir w base cuda_version lib version
              if w.pathExists libpath then
                let s2 := log s1 ("Trying to load " ++ libpath)
                if w.cdllOk libpath then
                  (none,
                   log { s2 with
                          preload_libs := setLib lib (some libpath) s2.preload_libs }
                     "Loaded",
                   [FsOp.pathExists libpath, FsOp.cdll libpath])
                else
                  let msg := "CuPy failed to preload library (" ++ libpath ++ ")"
                  (none,
                   { log s2 msg with warnings := s2.warnings ++ [msg] },
                   [FsOp.pathExists libpath, FsOp.cdll libpath])
              else
                let s2 := log (log s1 ("File " ++ libpath ++ " could not be found"))
                  ("Trying to load " ++ filename)
                if w.cdllOk filename then
                  (none,
                   log { s2 with
                          preload_libs := setLib lib (some filename) s2.preload_libs }
                     "Loaded",
                   [FsOp.pathExists libpath, FsOp.cdll filename])
                else
                  (none,
                   log s2 ("Library " ++ lib ++ " could not be preloaded"),
                   [FsOp.pathExists libpath, FsOp.cdll filename])

/-- The `for lib in _preload_libs.keys()` loop of lines 202-236: run
`tryPreloadOne` on each name in order, stopping only when an exception
propagates. -/
def preloadLoop (w : World) (config : WheelConfig) (cuda_version base : String) :
    List String → EnvState → Option PyErr × EnvState × List FsOp
  | [], s => (none, s, [])
  | lib :: rest, s =>
      let r1 := tryPreloadOne w config cuda_version base lib s
      match r1.1 with
      | some e => (some e, r1.2.1, r1.2.2)
      | none =>
          let r2 := preloadLoop w config cuda_version base rest r1.2.1
          (r2.1, r2.2.1, r1.2.2 ++ r2.2.2)

/-- `_preload_libraries()` (lines 184-236): load the wheel config (a
missing file skips preloading), read `config['cuda']` (raising `KeyError`
when absent), then run the preload loop over the keys of
`_preload_libs`. -/
def _preload_libraries (w : World) (s : EnvState) :
    Option PyErr × EnvState × List FsOp :=
  let r0 := get_preload_config w s
  match r0.1 with
  | none =>
      (none, log r0.2.1 "Skip preloading as this is not a wheel installation",
       r0.2.2)
  | some config =>
      match config.cuda with
      | none => (some (PyErr.keyError "cuda"), r0.2.1, r0.2.2)
      | some cuda_version =>
          let s2 := log r0.2.1
            ("CuPy wheel package built for CUDA " ++ cuda_version)
          let base := get_cupy_cuda_lib_path w
          let s3 := log s2 ("CuPy CUDA library directory: " ++ base)
          let r := preloadLoop w config cuda_version base
            (s3.preload_libs.map Prod.fst) s3
          (r.1, r.2.1, r0.2.2 ++ r.2.2)

/-- `_get_preload_logs()` (lines 239-240). -/
def _get_preload_logs (s : EnvState) : String :=
  String.intercalate "\n" s.preload_logs

/-- A library name is well formed with respect to a config when its entry,
if present, carries both the `version` and the `filename` field (so the
dict subscripts of lines 206-207 cannot raise). -/
def wellFormedFor (config : WheelConfig) (lib : String) : Bool :=
  match config.libs.lookup lib with
  | none => true
  | some e => e.version.isSome && e.filename.isSome

/-- The source path recorded for a library by one pass of the preload
loop body, `none` when no handle is recorded (library not configured, or
both load attempts fail).  This restates the branch structure of
lines 203-236 for use in theorem statements. -/
def loadOutcome (w : World) (config : WheelConfig)
    (cuda_version base lib : String) : Option String :=
  match config.libs.lookup lib with
  | none => none
  | some e =>
      match e.version, e.filename with
      | some version, some filename =>
          let libpath := qualifiedDir w base cuda_version lib version
          if w.pathExists libpath then
            if w.cdllOk libpath then some libpath else none
          else
            if w.cdllOk filename then some filename else none
      | _, _ => none

/-- A process environment in which nothing exists and nothing loads;
concrete worlds below override individual fields. -/
def emptyWorld : World :=
  { env := fun _ => none
    pathExists := fun _ => false
    isDir := fun _ => false
    which := fun _ => none
    whichAt := fun _ => none
    config := none
    cdllOk := fun _ => false
    installPath := "/site"
    currentDir := "/site/cupy"
    homeDir := "/home/user"
    abspath := id
    platform := "linux" }

/-- A wheel config pinning cuDNN 8.0.0 for CUDA 11.0. -/
def cudnnConfig : WheelConfig :=
  { cuda := some "11.0"
    libs := [("cudnn", { version := some "8.0.0"
                         filename := some "libcudnn.so.8.0.0" })] }

/-- A world holding `cudnnConfig` in which a loadable cuDNN library sits
exactly at the fully version-qualified path including the filename,
`~/.cupy/cuda_lib/11.0/cudnn/8.0.0/lib64/libcudnn.so.8.0.0`, while
`ctypes.CDLL` fails on every other argument (in particular on the bare
`lib64` directory). -/
def wQualified : World :=
  { emptyWorld with
      config := some cudnnConfig
      pathExists := fun p =>
        p = "/home/user/.cupy/cuda_lib/11.0/cudnn/8.0.0/lib64" ∨
        p = "/home/user/.cupy/cuda_lib/11.0/cudnn/8.0.0/lib64/libcudnn.so.8.0.0"
      cdllOk := fun p =>
        p = "/home/user/.cupy/cuda_lib/11.0/cudnn/8.0.0/lib64/libcudnn.so.8.0.0" }

/-- A world with no `CUDA_PATH` override and `nvcc` reachable through a
relative `PATH` entry, so `shutil.which` yields `./nvcc` and the
grandparent computation yields the empty string. -/
def wRelativeNvcc : World :=
  { emptyWorld with
      which := fun cmd => if cmd = "nvcc" then some "./nvcc" else none }

/-- A world holding `cudnnConfig` in which neither the qualified
directory exists nor any `ctypes.CDLL` call succeeds: both preload
strategies fail. -/
def wBothFail : World :=
  { emptyWorld with config := some cudnnConfig }

/-- A wheel config whose cuDNN entry lacks the required `version`
field. -/
def cudnnNoVersionConfig : WheelConfig :=
  { cuda := some "11.0"
    libs := [("cudnn", { version := none, filename := some "libcudnn.so.8" })] }

/-- A world whose wheel config exists but lacks the cuDNN `version`
field. -/
def wMissingField : World :=
  { emptyWorld with config := some cudnnNoVersionConfig }

/-- A wheel config with two pinned libraries, cuDNN and NCCL. -/
def twoLibConfig : WheelConfig :=
  { cuda := some "11.0"
    libs := [("cudnn", { version := some "8.0.0"
                         filename := some "libcudnn.so.8.0.0" }),
             ("nccl", { version := some "2.8.4"
                        filename := some "libnccl.so.2.8.4" })] }

/-- A world for `twoLibConfig` in which both load attempts fail for cuDNN
but the name-based fallback succeeds for NCCL. -/
def wTwoLibs : World :=
  { emptyWorld with
      config := some twoLibConfig
      cdllOk := fun p => p = "libnccl.so.2.8.4" }

/-- The module state with both cuDNN and NCCL registered in the preload
table (the source keeps NCCL commented out in `_preload_libs`; the loop
itself is generic in the table keys). -/
def twoLibState : EnvState :=
  { initState with preload_libs := [("cudnn", none), ("nccl", none)] }

/-- A world in which the `CUDA_PATH` override names an existing
directory. -/
def wOverride : World :=
  { emptyWorld with
      env := fun k => if k = "CUDA_PATH" then some "/opt/cuda" else none
      pathExists := fun p => p = "/opt/cuda" }

/-- A world in which the `NVCC` override is set (to a path that does not
exist, which must not matter). -/
def wNvccOverride : World :=
  { emptyWorld with
      env := fun k => if k = "NVCC" then some "/custom/nvcc" else none }

/-- A world in which only the well-known default `/usr/local/cuda`
exists, with bundled CUB headers present and `nvcc` found under the
toolkit `bin` directory. -/
def wDefaultCuda : World :=
  { emptyWorld with
      pathExists := fun p => p = "/usr/local/cuda"
      isDir := fun p => p = "/site/cupy/core/include/cupy/cub"
      whichAt := fun sp =>
        if sp = "/usr/local/cuda/bin" then some "/usr/local/cuda/bin/nvcc"
        else none }

/-- C5: `resolveToolkitPath` (`_get_cuda_path`) applies its rules in
order with first match winning: the `CUDA_PATH` override is returned
exactly when it names an existing path; otherwise the grandparent
directory of the `nvcc` executable found by the standard executable
search; otherwise `/usr/local/cuda` if it exists; and when none applies
the result is `none` (the function is total, so it never raises). -/
theorem toolkit_path_resolution_order (w : World) :
    (w.pathExists ((w.env "CUDA_PATH").getD "") = true →
      (_get_cuda_path w).1 = some ((w.env "CUDA_PATH").getD "")) ∧
    (w.pathExists ((w.env "CUDA_PATH").getD "") = false →
      ∀ p, w.which "nvcc" = some p →
        (_get_cuda_path w).1 = some (dirname (dirname p))) ∧
    (w.pathExists ((w.env "CUDA_PATH").getD "") = false →
      w.which "nvcc" = none → w.pathExists "/usr/local/cuda" = true →
      (_get_cuda_path w).1 = some "/usr/local/cuda") ∧
    (w.pathExists ((w.env "CUDA_PATH").getD "") = false →
      w.which "nvcc" = none → w.pathExists "/usr/local/cuda" = false →
      (_get_cuda_path w).1 = none) := by
  refine ⟨fun h1 => ?_, fun h1 p hp => ?_, fun h1 hn hu => ?_,
    fun h1 hn hu => ?_⟩ <;>
    simp [_get_cuda_path, h1, *]

/-- Witness for `toolkit_path_resolution_order`: with an existing
`/opt/cuda` override the resolver returns exactly it, and in the empty
world it returns `none`. -/
theorem toolkit_path_resolution_order_w :
    (_get_cuda_path wOverride).1 = some "/opt/cuda" ∧
    (_get_cuda_path emptyWorld).1 = none :=
  ⟨(toolkit_path_resolution_order wOverride).1 (by decide),
   (toolkit_path_resolution_order emptyWorld).2.2.2 (by decide) rfl rfl⟩

/-- C8: `resolveCompilerPath` (`_get_nvcc_path`) returns the `NVCC`
override unconditionally whenever it is set (no existence check, no
probe, no state change); when it is not set, the toolkit-path resolution
is triggered (the cache cell afterwards holds whatever `get_cuda_path`
caches), `none` is returned when the toolkit path is `none`, and
otherwise the result is the `shutil.which` search for `nvcc` under
`<toolkitPath>/bin`. -/
theorem compiler_path_resolution_order (w : World) (s : EnvState) :
    (∀ v, w.env "NVCC" = some v → _get_nvcc_path w s = (some v, s, [])) ∧
    (w.env "NVCC" = none →
      (_get_nvcc_path w s).2.1.cuda_path = ((get_cuda_path w s).2.1).cuda_path ∧
      ((get_cuda_path w s).1 = none → (_get_nvcc_path w s).1 = none) ∧
      (∀ cp, (get_cuda_path w s).1 = some cp →
        (_get_nvcc_path w s).1 = w.whichAt (joinP cp "bin"))) := by
  constructor
  · intro v hv
    simp [_get_nvcc_path, hv]
  · intro hn
    rcases hg : get_cuda_path w s with ⟨r, s1, t1⟩
    cases r <;> simp [_get_nvcc_path, hn, hg]

/-- Witness for `compiler_path_resolution_order`: the override is
returned untouched even though it does not exist on disk, and with no
override the compiler is found under `/usr/local/cuda/bin`. -/
theorem compiler_path_resolution_order_w :
    _get_nvcc_path wNvccOverride initState = (some "/custom/nvcc", initState, []) ∧
    (_get_nvcc_path wDefaultCuda initState).1 = some "/usr/local/cuda/bin/nvcc" := by
  constructor
  · exact (compiler_path_resolution_order wNvccOverride initState).1
      "/custom/nvcc" (by decide)
  · have h := ((compiler_path_resolution_order wDefaultCuda initState).2
      (by decide)).2.2 "/usr/local/cuda" (by decide)
    rw [h]
    decide

/-- C10: when the `NVCC` override is set, `get_nvcc_path` leaves the
toolkit-path cache cell untouched (whatever its state, including the
uninitialized sentinel) and performs no filesystem probe, and a call
that actually resolves (cache cell still uninitialized) returns the
override. -/
theorem compiler_override_frame (w : World) (s : EnvState) (v : String)
    (hv : w.env "NVCC" = some v) :
    (get_nvcc_path w s).2.1.cuda_path = s.cuda_path ∧
    (get_nvcc_path w s).2.2 = [] ∧
    (s.nvcc_path = some "" → (get_nvcc_path w s).1 = some v) := by
  by_cases hs : s.nvcc_path = some ""
  · simp [get_nvcc_path, _get_nvcc_path, hs, hv]
  · simp [get_nvcc_path, hs]

/-- Witness for `compiler_override_frame` at the initial state. -/
theorem compiler_override_frame_w :
    (get_nvcc_path wNvccOverride initState).2.1.cuda_path = initState.cuda_path ∧
    (get_nvcc_path wNvccOverride initState).2.2 = [] ∧
    (initState.nvcc_path = some "" →
      (get_nvcc_path wNvccOverride initState).1 = some "/custom/nvcc") :=
  compiler_override_frame wNvccOverride initState "/custom/nvcc" (by decide)

/-- C9: manifest absence is not memoized while a parsed manifest is.
With an empty cache and no manifest file, `get_preload_config` probes
the filesystem, returns `none` and leaves the state unchanged; a later
call in a world where the file now exists parses and caches it; with a
cached manifest the call returns it with no filesystem access. -/
theorem manifest_absence_not_memoized (w w' : World) (s : EnvState)
    (c : WheelConfig) :
    (s.preload_config = none → w.config = none →
      get_preload_config w s = (none, s, [FsOp.pathExists (config_path w)])) ∧
    (s.preload_config = none → w'.config = some c →
      (get_preload_config w' s).1 = some c ∧
      (get_preload_config w' s).2.1.preload_config = some c) ∧
    (s.preload_config = some c →
      get_preload_config w s = (some c, s, [])) := by
  refine ⟨fun h1 h2 => ?_, fun h1 h2 => ?_, fun h1 => ?_⟩
  · simp [get_preload_config, h1, h2]
  · simp [get_preload_config, h1, h2]
  · simp [get_preload_config, h1]

/-- Witness for `manifest_absence_not_memoized`: in the empty world the
loader re-probes and caches nothing; once the file exists it is parsed
and cached. -/
theorem manifest_absence_not_memoized_w :
    get_preload_config emptyWorld initState =
      (none, initState, [FsOp.pathExists "/site/cupy/_wheel.json"]) ∧
    (get_preload_config wBothFail initState).1 = some cudnnConfig ∧
    (get_preload_config wBothFail initState).2.1.preload_config =
      some cudnnConfig := by
  have h := manifest_absence_not_memoized emptyWorld wBothFail initState cudnnConfig
  exact ⟨by rw [h.1 rfl rfl]; decide, (h.2.1 rfl rfl).1, (h.2.1 rfl rfl).2⟩

/-- C7: `resolveHeaderPath` (`_get_cub_path`) applies its rules in
order: the bundled-copy marker when the bundled header directory inside
the package tree exists; otherwise the system marker exactly when
`include/cub` exists beneath the resolved toolkit path; otherwise
`none`. -/
theorem header_path_resolution_order (w : World) (s : EnvState) :
    (w.isDir (joinP w.currentDir "core/include/cupy/cub") = true →
      (_get_cub_path w s).1 = some "<bundle>") ∧
    (w.isDir (joinP w.currentDir "core/include/cupy/cub") = false →
      ∀ cp, (get_cuda_path w s).1 = some cp →
        (_get_cub_path w s).1 =
          (if w.isDir (joinP cp "include/cub") then some "<CUDA>" else none)) ∧
    (w.isDir (joinP w.currentDir "core/include/cupy/cub") = false →
      (get_cuda_path w s).1 = none → (_get_cub_path w s).1 = none) := by
  refine ⟨fun hb => ?_, fun hb cp hcp => ?_, fun hb hn => ?_⟩
  · rcases hg : get_cuda_path w s with ⟨r, s1, t1⟩
    cases r <;> simp [_get_cub_path, hg, hb]
  · rcases hg : get_cuda_path w s with ⟨r, s1, t1⟩
    rw [hg] at hcp
    simp only at hcp
    subst hcp
    simp only [_get_cub_path, hg, hb]
    by_cases hc : w.isDir (joinP cp "include/cub") = true
    · simp [hc]
    · simp [hc]
  · rcases hg : get_cuda_path w s with ⟨r, s1, t1⟩
    rw [hg] at hn
    simp only at hn
    subst hn
    simp [_get_cub_path, hg, hb]

/-- Witness for `header_path_resolution_order`: in a world with bundled
headers present the bundled marker wins, and in the empty world the
result is `none`. -/
theorem header_path_resolution_order_w :
    (_get_cub_path wDefaultCuda initState).1 = some "<bundle>" ∧
    (_get_cub_path emptyWorld initState).1 = none :=
  ⟨(header_path_resolution_order wDefaultCuda initState).1 (by decide),
   (header_path_resolution_order emptyWorld initState).2.2 (by decide)
     (by decide)⟩

/-- C4 counterexample: in `wRelativeNvcc` (no override, `nvcc` found at
the relative path `./nvcc`) the toolkit resolver computes the empty
string, which collides with the `''` uninitialized sentinel, so the
second call re-runs the resolution and probes the filesystem again —
refuting the claim that every call after the first performs no further
filesystem probes. -/
theorem resolver_memoization_counterexample :
    (get_cuda_path wRelativeNvcc initState).1 = some "" ∧
    (get_cuda_path wRelativeNvcc initState).2.2 =
      [FsOp.pathExists "", FsOp.which "nvcc"] ∧
    (get_cuda_path wRelativeNvcc
        (get_cuda_path wRelativeNvcc initState).2.1).2.2 =
      [FsOp.pathExists "", FsOp.which "nvcc"] ∧
    (get_cuda_path wRelativeNvcc
        (get_cuda_path wRelativeNvcc initState).2.1).2.2 ≠ [] := by
  refine ⟨?_, ?_, ?_, ?_⟩ <;> decide

/-- The header resolver never produces the empty string, so its result
can never collide with the `''` sentinel. -/
theorem cub_result_ne_empty (w : World) (s : EnvState) :
    (_get_cub_path w s).1 ≠ some "" := by
  rcases hg : get_cuda_path w s with ⟨r, s1, t1⟩
  cases r <;> simp only [_get_cub_path, hg]
  all_goals split
  all_goals try split
  all_goals simp_all

/-- C4 as amended: a resolver call whose result is not `Found ""` (the
value colliding with the uninitialized sentinel) is memoized: the second
call returns the identical result, leaves the state unchanged and
performs no filesystem probe, including when the result was `none`.  For
the header resolver the collision is impossible, so its idempotence is
unconditional. -/
theorem resolver_memoization_idempotent (w : World) (s : EnvState) :
    ((get_cuda_path w s).1 ≠ some "" →
      get_cuda_path w (get_cuda_path w s).2.1 =
        ((get_cuda_path w s).1, (get_cuda_path w s).2.1, [])) ∧
    ((get_nvcc_path w s).1 ≠ some "" →
      get_nvcc_path w (get_nvcc_path w s).2.1 =
        ((get_nvcc_path w s).1, (get_nvcc_path w s).2.1, [])) ∧
    (get_cub_path w (get_cub_path w s).2.1 =
      ((get_cub_path w s).1, (get_cub_path w s).2.1, [])) := by
  refine ⟨fun h => ?_, fun h => ?_, ?_⟩
  · by_cases hs : s.cuda_path = some ""
    · rcases hg : _get_cuda_path w with ⟨r, t⟩
      simp only [get_cuda_path, hs, if_true, hg] at h ⊢
      simp [h]
    · simp [get_cuda_path, hs]
  · by_cases hs : s.nvcc_path = some ""
    · rcases hg : _get_nvcc_path w s with ⟨r, s1, t⟩
      simp only [get_nvcc_path, hs, if_true, hg] at h ⊢
      simp [h]
    · simp [get_nvcc_path, hs]
  · by_cases hs : s.cub_path = some ""
    · rcases hg : _get_cub_path w s with ⟨r, s1, t⟩
      have hr : r ≠ some "" := by
        have hne := cub_result_ne_empty w s
        rw [hg] at hne
        exact hne
      simp only [get_cub_path, hs, if_true, hg]
      simp [hr]
    · simp [get_cub_path, hs]

/-- Witness for `resolver_memoization_idempotent`: in `wDefaultCuda` the
first calls resolve `/usr/local/cuda`, its `bin/nvcc` and the bundled
headers, and the second calls return the same results from the cache
with no probes. -/
theorem resolver_memoization_idempotent_w :
    get_cuda_path wDefaultCuda (get_cuda_path wDefaultCuda initState).2.1 =
      ((get_cuda_path wDefaultCuda initState).1,
       (get_cuda_path wDefaultCuda initState).2.1, []) ∧
    get_nvcc_path wDefaultCuda (get_nvcc_path wDefaultCuda initState).2.1 =
      ((get_nvcc_path wDefaultCuda initState).1,
       (get_nvcc_path wDefaultCuda initState).2.1, []) ∧
    get_cub_path wDefaultCuda (get_cub_path wDefaultCuda initState).2.1 =
      ((get_cub_path wDefaultCuda initState).1,
       (get_cub_path wDefaultCuda initState).2.1, []) :=
  ⟨(resolver_memoization_idempotent wDefaultCuda initState).1 (by decide),
   (resolver_memoization_idempotent wDefaultCuda initState).2.1 (by decide),
   (resolver_memoization_idempotent wDefaultCuda initState).2.2⟩

/-- C2: when the manifest file exists but lacks a required field — the
`cuda` toolkit version field, or the `version`/`filename` field of the
configured `cudnn` entry — the preload entry point raises (`KeyError`,
the shape error the spec calls ConfigCorrupt) to its caller, attempts no
library load (no `CDLL` operation appears in the trace) and records no
handle. -/
theorem manifest_missing_field_fails_before_load (w : World) (c : WheelConfig)
    (hw : w.config = some c)
    (hbad : c.cuda = none ∨
      ∃ e, c.libs.lookup "cudnn" = some e ∧
        (e.version = none ∨ e.filename = none)) :
    (∃ err, (_preload_libraries w initState).1 = some err) ∧
    (∀ p, FsOp.cdll p ∉ (_preload_libraries w initState).2.2) ∧
    (_preload_libraries w initState).2.1.preload_libs =
      initState.preload_libs := by
  rcases hc : c.cuda with _ | cv
  · refine ⟨⟨PyErr.keyError "cuda", ?_⟩, fun p => ?_, ?_⟩ <;>
      simp [_preload_libraries, get_preload_config, initState, hw, hc]
  · rcases hbad with hbad | ⟨e, he, hbad⟩
    · rw [hc] at hbad
      cases hbad
    · rcases hv : e.version with _ | v
      · refine ⟨⟨PyErr.keyError "version", ?_⟩, fun p => ?_, ?_⟩ <;>
          simp [_preload_libraries, get_preload_config, preloadLoop,
            tryPreloadOne, log, initState, hw, hc, he, hv]
      · rcases hf : e.filename with _ | f
        · refine ⟨⟨PyErr.keyError "filename", ?_⟩, fun p => ?_, ?_⟩ <;>
            simp [_preload_libraries, get_preload_config, preloadLoop,
              tryPreloadOne, log, initState, hw, hc, he, hv, hf]
        · rw [hv, hf] at hbad
          rcases hbad with hbad | hbad <;> cases hbad

/-- Witness for `manifest_missing_field_fails_before_load`: a manifest
whose `cudnn` entry lacks the `version` field raises before any load
attempt. -/
theorem manifest_missing_field_fails_before_load_w :
    (∃ err, (_preload_libraries wMissingField initState).1 = some err) ∧
    (∀ p, FsOp.cdll p ∉ (_preload_libraries wMissingField initState).2.2) ∧
    (_preload_libraries wMissingField initState).2.1.preload_libs =
      initState.preload_libs :=
  manifest_missing_field_fails_before_load wMissingField cudnnNoVersionConfig
    rfl (Or.inr ⟨{ version := none, filename := some "libcudnn.so.8" },
      rfl, Or.inl rfl⟩)

/-- Appending a log line does not change the preload table. -/
theorem log_preload_libs (s : EnvState) (m : String) :
    (log s m).preload_libs = s.preload_libs := rfl

/-- `get_preload_config` never changes the preload table. -/
theorem get_preload_config_preload_libs (w : World) (s : EnvState) :
    (get_preload_config w s).2.1.preload_libs = s.preload_libs := by
  rcases hs : s.preload_config with _ | c
  · rcases hw : w.config with _ | c2 <;> simp [get_preload_config, hs, hw]
  · simp [get_preload_config, hs]

/-- Looking up the key just written by `setLib` yields the new value. -/
theorem lookup_setLib_self (k : String) (v : Option String) :
    ∀ l : List (String × Option String), (setLib k v l).lookup k = some v
  | [] => by simp [setLib, List.lookup]
  | p :: rest => by
      by_cases h : p.1 = k
      · simp [setLib, h, List.lookup]
      · have hb : (k == p.1) = false :=
          beq_eq_false_iff_ne.mpr fun hh => h hh.symm
        simp [setLib, h, List.lookup, hb, lookup_setLib_self k v rest]

/-- Looking up a different key is unaffected by `setLib`. -/
theorem lookup_setLib_ne (k x : String) (v : Option String) (hx : x ≠ k) :
    ∀ l : List (String × Option String), (setLib k v l).lookup x = l.lookup x
  | [] => by
      have hb : (x == k) = false := beq_eq_false_iff_ne.mpr hx
      simp [setLib, List.lookup, hb]
  | p :: rest => by
      by_cases h : p.1 = k
      · have hb : (x == k) = false := beq_eq_false_iff_ne.mpr hx
        have hb2 : (x == p.1) = false := by rw [h]; exact hb
        simp [setLib, h, List.lookup, hb, hb2]
      · simp [setLib, h, List.lookup, lookup_setLib_ne k x v hx rest]

/-- One pass of the preload loop body over a well-formed entry never
raises, and its effect on the preload table is described by
`loadOutcome`. -/
theorem tryPreloadOne_wf_spec (w : World) (config : WheelConfig)
    (cv base lib : String) (s : EnvState)
    (h : wellFormedFor config lib = true) :
    (tryPreloadOne w config cv base lib s).1 = none ∧
    (tryPreloadOne w config cv base lib s).2.1.preload_libs =
      (match loadOutcome w config cv base lib with
       | some src => setLib lib (some src) s.preload_libs
       | none => s.preload_libs) := by
  rcases hl : config.libs.lookup lib with _ | e
  · simp [tryPreloadOne, loadOutcome, log, hl]
  · rcases hv : e.version with _ | v
    · simp [wellFormedFor, hl, hv] at h
    · rcases hf : e.filename with _ | f
      · simp [wellFormedFor, hl, hv, hf] at h
      · by_cases hp : w.pathExists (qualifiedDir w base cv lib v) = true
        · by_cases hcd : w.cdllOk (qualifiedDir w base cv lib v) = true
          · simp [tryPreloadOne, loadOutcome, log, hl, hv, hf, hp, hcd]
          · simp [tryPreloadOne, loadOutcome, log, hl, hv, hf, hp, hcd]
        · by_cases hcd : w.cdllOk f = true
          · simp [tryPreloadOne, loadOutcome, log, hl, hv, hf, hp, hcd]
          · simp [tryPreloadOne, loadOutcome, log, hl, hv, hf, hp, hcd]

/-- The preload loop over well-formed entries never raises, and the
final preload table is the initial one overwritten exactly at the
processed keys whose `loadOutcome` succeeded. -/
theorem preloadLoop_wf_spec (w : World) (config : WheelConfig)
    (cv base : String) :
    ∀ (libs : List String) (s : EnvState),
      (∀ lib ∈ libs, wellFormedFor config lib = true) →
      (preloadLoop w config cv base libs s).1 = none ∧
      ∀ x, (preloadLoop w config cv base libs s).2.1.preload_libs.lookup x =
        if x ∈ libs ∧ (loadOutcome w config cv base x).isSome = true
        then (loadOutcome w config cv base x).map some
        else s.preload_libs.lookup x
  | [], s, h => by
      refine ⟨by simp [preloadLoop], fun x => by simp [preloadLoop]⟩
  | lib :: rest, s, h => by
      have hwf : wellFormedFor config lib = true := h lib (by simp)
      have hrest : ∀ l ∈ rest, wellFormedFor config l = true :=
        fun l hl => h l (by simp [hl])
      obtain ⟨ht1, ht2⟩ := tryPreloadOne_wf_spec w config cv base lib s hwf
      have ih := preloadLoop_wf_spec w config cv base rest
        (tryPreloadOne w config cv base lib s).2.1 hrest
      constructor
      · simp only [preloadLoop, ht1]
        exact ih.1
      · intro x
        simp only [preloadLoop, ht1]
        rw [ih.2 x]
        by_cases hxr : x ∈ rest ∧ (loadOutcome w config cv base x).isSome = true
        · rw [if_pos hxr, if_pos ⟨List.mem_cons_of_mem lib hxr.1, hxr.2⟩]
        · rw [if_neg hxr, ht2]
          by_cases hxl : x = lib
          · subst hxl
            rcases ho : loadOutcome w config cv base x with _ | src
            · simp [ho]
            · simp only [ho, lookup_setLib_self]
              rw [if_pos ⟨List.mem_cons_self x rest, by simp [ho]⟩]
              simp
          · have hcond :
                ¬(x ∈ lib :: rest ∧
                  (loadOutcome w config cv base x).isSome = true) := by
              rintro ⟨hm, hs2⟩
              rcases List.mem_cons.mp hm with h1 | h1
              · exact hxl h1
              · exact hxr ⟨h1, hs2⟩
            rw [if_neg hcond]
            rcases ho : loadOutcome w config cv base lib with _ | src
            · rfl
            · exact lookup_setLib_ne lib x (some src) hxl s.preload_libs

/-- C3: for a well-formed manifest the preload batch never raises: with
the manifest reachable from the loader and every configured library
entry carrying its `version` and `filename` fields, `_preload_libraries`
returns normally, and the final preload table holds a handle exactly for
the libraries whose load succeeded (per `loadOutcome`) while every other
entry — in particular one whose two load attempts both fail — keeps its
prior (absent) handle. -/
theorem preload_batch_tolerates_failures (w : World) (s : EnvState)
    (c : WheelConfig) (cv : String)
    (hc1 : (get_preload_config w s).1 = some c)
    (hcv : c.cuda = some cv)
    (h : ∀ lib ∈ s.preload_libs.map Prod.fst, wellFormedFor c lib = true) :
    (_preload_libraries w s).1 = none ∧
    ∀ x, (_preload_libraries w s).2.1.preload_libs.lookup x =
      if x ∈ s.preload_libs.map Prod.fst ∧
         (loadOutcome w c cv (get_cupy_cuda_lib_path w) x).isSome = true
      then (loadOutcome w c cv (get_cupy_cuda_lib_path w) x).map some
      else s.preload_libs.lookup x := by
  have hs1 : (get_preload_config w s).2.1.preload_libs = s.preload_libs :=
    get_preload_config_preload_libs w s
  have key := preloadLoop_wf_spec w c cv (get_cupy_cuda_lib_path w)
    (s.preload_libs.map Prod.fst)
    (log (log (get_preload_config w s).2.1
        ("CuPy wheel package built for CUDA " ++ cv))
      ("CuPy CUDA library directory: " ++ get_cupy_cuda_lib_path w)) h
  constructor
  · simp only [_preload_libraries, hc1, hcv, log_preload_libs, hs1]
    exact key.1
  · intro x
    simp only [_preload_libraries, hc1, hcv, log_preload_libs, hs1]
    rw [key.2 x]
    simp only [log_preload_libs, hs1]

/-- Witness for `preload_batch_tolerates_failures`: with cuDNN and NCCL
both configured, both load attempts failing for cuDNN and the fallback
succeeding for NCCL, the batch returns normally, cuDNN keeps no handle
and NCCL is loaded. -/
theorem preload_batch_tolerates_failures_w :
    (_preload_libraries wTwoLibs twoLibState).1 = none ∧
    (_preload_libraries wTwoLibs twoLibState).2.1.preload_libs.lookup
      "cudnn" = some none ∧
    (_preload_libraries wTwoLibs twoLibState).2.1.preload_libs.lookup
      "nccl" = some (some "libnccl.so.2.8.4") := by
  have h := preload_batch_tolerates_failures wTwoLibs twoLibState
    twoLibConfig "11.0" (by decide) (by decide) (by decide)
  refine ⟨h.1, ?_, ?_⟩
  · rw [h.2 "cudnn"]
    decide
  · rw [h.2 "nccl"]
    decide

/-- C6 counterexample: in `wBothFail` the qualified directory is absent
and the fallback `CDLL` raises, so the cuDNN preload fails — the failure
is logged, no handle is recorded — yet the warnings channel stays empty:
the name-based fallback failure is NOT downgraded to a warning, refuting
the claim that every preload failure is surfaced as a warning. -/
theorem fallback_failure_emits_no_warning :
    (_preload_libraries wBothFail initState).2.1.preload_libs.lookup
      "cudnn" = some none ∧
    (_preload_libraries wBothFail initState).2.1.preload_logs.getLast? =
      some "Library cudnn could not be preloaded" ∧
    (_preload_libraries wBothFail initState).2.1.warnings = [] := by
  refine ⟨?_, ?_, ?_⟩ <;> decide

/-- C6 as amended: a failing qualified-path load (path exists, `CDLL`
raises) is downgraded to a warning AND appended to the diagnostic log,
and the body returns normally; a failing name-based fallback load (path
absent, `CDLL` on the filename raises) is only appended to the
diagnostic log — the warnings channel is left unchanged — and the body
likewise returns normally, so neither failure aborts the batch. -/
theorem preload_failure_warn_log_policy (w : World) (config : WheelConfig)
    (cv base lib : String) (s : EnvState) (e : LibEntry) (v f : String)
    (he : config.libs.lookup lib = some e) (hv : e.version = some v)
    (hf : e.filename = some f) :
    (w.pathExists (qualifiedDir w base cv lib v) = true →
     w.cdllOk (qualifiedDir w base cv lib v) = false →
      (tryPreloadOne w config cv base lib s).1 = none ∧
      (tryPreloadOne w config cv base lib s).2.1.warnings =
        s.warnings ++ ["CuPy failed to preload library ("
          ++ qualifiedDir w base cv lib v ++ ")"] ∧
      (tryPreloadOne w config cv base lib s).2.1.preload_logs =
        s.preload_logs ++
          ["Looking for " ++ lib ++ " version " ++ v ++ " (" ++ f ++ ")",
           "Trying to load " ++ qualifiedDir w base cv lib v,
           "CuPy failed to preload library ("
             ++ qualifiedDir w base cv lib v ++ ")"]) ∧
    (w.pathExists (qualifiedDir w base cv lib v) = false →
     w.cdllOk f = false →
      (tryPreloadOne w config cv base lib s).1 = none ∧
      (tryPreloadOne w config cv base lib s).2.1.warnings = s.warnings ∧
      (tryPreloadOne w config cv base lib s).2.1.preload_logs =
        s.preload_logs ++
          ["Looking for " ++ lib ++ " version " ++ v ++ " (" ++ f ++ ")",
           "File " ++ qualifiedDir w base cv lib v ++ " could not be found",
           "Trying to load " ++ f,
           "Library " ++ lib ++ " could not be preloaded"]) := by
  constructor
  · intro hp hcd
    refine ⟨?_, ?_, ?_⟩ <;>
      simp [tryPreloadOne, log, he, hv, hf, hp, hcd]
  · intro hp hcd
    refine ⟨?_, ?_, ?_⟩ <;>
      simp [tryPreloadOne, log, he, hv, hf, hp, hcd]

/-- Witness for `preload_failure_warn_log_policy`: in `wQualified` the
qualified directory exists but `CDLL` fails on it (warning plus log
line), and in `wBothFail` the fallback fails (log line only, warnings
unchanged). -/
theorem preload_failure_warn_log_policy_w :
    ((tryPreloadOne wQualified cudnnConfig "11.0"
        "/home/user/.cupy/cuda_lib" "cudnn" initState).1 = none ∧
     (tryPreloadOne wQualified cudnnConfig "11.0"
        "/home/user/.cupy/cuda_lib" "cudnn" initState).2.1.warnings =
       initState.warnings ++ ["CuPy failed to preload library ("
         ++ qualifiedDir wQualified "/home/user/.cupy/cuda_lib" "11.0"
             "cudnn" "8.0.0" ++ ")"] ∧
     (tryPreloadOne wQualified cudnnConfig "11.0"
        "/home/user/.cupy/cuda_lib" "cudnn" initState).2.1.preload_logs =
       initState.preload_logs ++
         ["Looking for cudnn version 8.0.0 (libcudnn.so.8.0.0)",
          "Trying to load " ++ qualifiedDir wQualified
            "/home/user/.cupy/cuda_lib" "11.0" "cudnn" "8.0.0",
          "CuPy failed to preload library ("
            ++ qualifiedDir wQualified "/home/user/.cupy/cuda_lib" "11.0"
                "cudnn" "8.0.0" ++ ")"]) ∧
    ((tryPreloadOne wBothFail cudnnConfig "11.0"
        "/home/user/.cupy/cuda_lib" "cudnn" initState).1 = none ∧
     (tryPreloadOne wBothFail cudnnConfig "11.0"
        "/home/user/.cupy/cuda_lib" "cudnn" initState).2.1.warnings =
       initState.warnings ∧
     (tryPreloadOne wBothFail cudnnConfig "11.0"
        "/home/user/.cupy/cuda_lib" "cudnn" initState).2.1.preload_logs =
       initState.preload_logs ++
         ["Looking for cudnn version 8.0.0 (libcudnn.so.8.0.0)",
          "File " ++ qualifiedDir wBothFail "/home/user/.cupy/cuda_lib"
            "11.0" "cudnn" "8.0.0" ++ " could not be found",
          "Trying to load libcudnn.so.8.0.0",
          "Library cudnn could not be preloaded"]) :=
  ⟨(preload_failure_warn_log_policy wQualified cudnnConfig "11.0"
      "/home/user/.cupy/cuda_lib" "cudnn" initState
      { version := some "8.0.0", filename := some "libcudnn.so.8.0.0" }
      "8.0.0" "libcudnn.so.8.0.0" rfl rfl rfl).1 (by decide) (by decide),
   (preload_failure_warn_log_policy wBothFail cudnnConfig "11.0"
      "/home/user/.cupy/cuda_lib" "cudnn" initState
      { version := some "8.0.0", filename := some "libcudnn.so.8.0.0" }
      "8.0.0" "libcudnn.so.8.0.0" rfl rfl rfl).2 (by decide) (by decide)⟩

/-- C1 failing input: the candidate path built at lines 211-212 joins
only `baseDir/toolkitVersion/lib/version/lib64dir` and OMITS the
configured filename, contradicting the documented layout
`baseDir/toolkitVersion/lib/version/lib64dir/filename`.  In `wQualified`
a loadable cuDNN library sits exactly at the claimed fully-qualified
path, yet the code never probes that path: it probes the bare `lib64`
directory, passes the directory itself to the loader (which can never
succeed on a directory), and records no handle — the qualified-path
strategy is unable to load anything. -/
theorem preload_qualified_path_omits_filename :
    wQualified.pathExists
      "/home/user/.cupy/cuda_lib/11.0/cudnn/8.0.0/lib64/libcudnn.so.8.0.0"
      = true ∧
    wQualified.cdllOk
      "/home/user/.cupy/cuda_lib/11.0/cudnn/8.0.0/lib64/libcudnn.so.8.0.0"
      = true ∧
    (_preload_libraries wQualified initState).2.2 =
      [FsOp.pathExists "/site/cupy/_wheel.json",
       FsOp.readConfig "/site/cupy/_wheel.json",
       FsOp.pathExists "/home/user/.cupy/cuda_lib/11.0/cudnn/8.0.0/lib64",
       FsOp.cdll "/home/user/.cupy/cuda_lib/11.0/cudnn/8.0.0/lib64"] ∧
    FsOp.cdll
        "/home/user/.cupy/cuda_lib/11.0/cudnn/8.0.0/lib64/libcudnn.so.8.0.0"
      ∉ (_preload_libraries wQualified initState).2.2 ∧
    (_preload_libraries wQualified initState).2.1.preload_libs.lookup
      "cudnn" = some none := by
  refine ⟨?_, ?_, ?_, ?_, ?_⟩ <;> decide

end CupyEnv
